import Mathlib

/-!
Verification of the perception-dashboard application (`streamlit_app.py`)
against its natural-language specification.

The program is embedded shallowly:

* numeric cell values are modelled as `ℚ` (the program only does exact
  decimal arithmetic `v * 100` and comparisons on them);
* a pandas `DataFrame` is a `Table`: an ordered list of named columns of
  `Cell`s, where a `Cell` is missing (`NaN`/`None`), numeric, or text;
* Python exceptions are modelled with `Except String`; a `try/except: pass`
  block is `Except.toOption` followed by discarding failures;
* the sheet dictionary returned by `load_excel` is a `SheetSet`
  (`String → Option Table`); in-place dataframe mutation of a stored sheet
  is modelled by the section returning an updated `SheetSet`;
* `DataFrame.sort_values` is modelled after pandas `nargsort`
  (pandas/core/sorting.py) over numpy's argsort with the default
  `kind="quicksort"`, i.e. introsort with median-of-three partitioning,
  an insertion-sort run for segments of at most 16 elements
  (`SMALL_QUICKSORT = 15`), and a heapsort fallback when the depth budget
  `2 * msb(n)` is exhausted (numpy `npysort/quicksort.c.src`, `aquicksort`).
  The inner scan loops are written with ample structural fuel; on every
  input considered here the fuel is never exhausted (the C loops are
  bounded by the array size).
-/

namespace Dash

/-- A table cell: missing (pandas `NaN` / Python `None`), a numeric value,
or a text value.  `NaN` and `None` are both "missing" for `pd.isna` and are
not distinguished. -/
inductive Cell where
  | na : Cell
  | num : ℚ → Cell
  | str : String → Cell
deriving DecidableEq, Repr

/-- `to_pct` (streamlit_app.py lines 17-20) on a numeric-or-missing value:

```python
def to_pct(v):
    if pd.isna(v):
        return None
    return v*100 if v <= 1 else v
```
-/
def to_pct : Option ℚ → Option ℚ
  | none => none
  | some v => some (if v ≤ 1 then v * 100 else v)

/-- `to_pct` applied to one table cell, as `Series.apply(to_pct)` does.
A text cell reaches the Python comparison `v <= 1`, which raises
`TypeError`. -/
def to_pctCell : Cell → Except String Cell
  | .na => .ok .na
  | .num v => .ok (.num (if v ≤ 1 then v * 100 else v))
  | .str _ => .error "TypeError: '<=' not supported between instances of 'str' and 'int'"

/-- Python `str.lower()` on the ASCII column names and labels used by the
dashboard, written over the character list so that it reduces
definitionally (`String.toLower` recurses on byte positions and does
not). -/
def pyLower (s : String) : String :=
  ⟨s.data.map Char.toLower⟩

/-- One named column of a dataframe. -/
structure Col where
  name : String
  data : List Cell
deriving DecidableEq, Repr

/-- A pandas `DataFrame`: an ordered list of named columns.  The dashboard's
frames all have pairwise-distinct column names. -/
structure Table where
  cols : List Col
deriving DecidableEq, Repr

namespace Table

/-- `df[c]` read access: the data of the first column named `n`. -/
def getCol (t : Table) (n : String) : Option (List Cell) :=
  (t.cols.find? (fun c => c.name == n)).map Col.data

/-- `df[c]` read access where a missing column raises `KeyError`. -/
def getColE (t : Table) (n : String) : Except String (List Cell) :=
  match t.getCol n with
  | none => .error "KeyError"
  | some d => .ok d

/-- Number of rows (`len(df)`); the frames are rectangular, so the first
column's length is used. -/
def nRows (t : Table) : Nat :=
  match t.cols with
  | [] => 0
  | c :: _ => c.data.length

/-- `df.empty`: true when either axis has length zero. -/
def isEmpty (t : Table) : Bool :=
  t.cols.isEmpty || t.nRows == 0

/-- `df[c] = series` assignment: replace the data of column `n` if it
exists, else append a new column (pandas column insertion order). -/
def setCol (t : Table) (n : String) (d : List Cell) : Table :=
  if (t.cols.find? (fun c => c.name == n)).isSome then
    ⟨t.cols.map (fun c => if c.name == n then ⟨c.name, d⟩ else c)⟩
  else
    ⟨t.cols ++ [⟨n, d⟩]⟩

/-- `df.take(indexer)`: reindex the rows by a list of row positions (as the
block manager does after `nargsort`).  All positions produced by `nargsort`
are in range, so the default cell is never read. -/
def takeRows (t : Table) (idx : List Nat) : Table :=
  ⟨t.cols.map (fun c => ⟨c.name, idx.map (fun i => c.data.getD i Cell.na)⟩)⟩

/-- `df.head(n)`: the first `n` rows. -/
def head (t : Table) (n : Nat) : Table :=
  ⟨t.cols.map (fun c => ⟨c.name, c.data.take n⟩)⟩

/-- `df.copy()`: value semantics in the model, so this is the identity; it
is kept so the section pipelines mirror the source text. -/
def copy (t : Table) : Table := t

/-- `df.rename(columns={old: new})`. -/
def rename (t : Table) (old new : String) : Table :=
  ⟨t.cols.map (fun c => if c.name == old then ⟨new, c.data⟩ else c)⟩

end Table

/-- `df[c] = df[c].apply(f)` where `f` may raise: reading a missing column
raises `KeyError`, and the first failing application propagates. -/
def applyColM (t : Table) (n : String) (f : Cell → Except String Cell) :
    Except String Table := do
  let d ← t.getColE n
  let d' ← d.mapM f
  pure (t.setCol n d')

/-! ### numpy argsort, `kind="quicksort"` (introsort)

Model of `aquicksort` from numpy `npysort/quicksort.c.src`, operating on an
index list `ts` (`tosort`) into a fixed value list `v`, with the NaN-free
comparison `LT a b = a < b` (pandas `nargsort` has removed the missing
entries before calling argsort).  The explicit work stack of the C code is
a `List (Nat × Nat)` of segment bounds; the shared decrement-per-partition
depth budget is threaded as an `Int`. -/

/-- `v[ts[p]]`, the value at position `p` of the index array. -/
def vAt (v : List ℚ) (ts : List Nat) (p : Nat) : ℚ :=
  v.getD (ts.getD p 0) 0

/-- `INTP_SWAP(ts[i], ts[j])`. -/
def lswap (ts : List Nat) (i j : Nat) : List Nat :=
  (ts.set i (ts.getD j 0)).set j (ts.getD i 0)

/-- `do ++pi; while (LT(v[*pi], vp));` — final value of `pi`. -/
def scanUp (v : List ℚ) (ts : List Nat) (vp : ℚ) (pi : Nat) : Nat → Nat
  | 0 => pi + 1
  | fuel + 1 =>
    let pi' := pi + 1
    if vAt v ts pi' < vp then scanUp v ts vp pi' fuel else pi'

/-- `do --pj; while (LT(vp, v[*pj]));` — final value of `pj`. -/
def scanDown (v : List ℚ) (ts : List Nat) (vp : ℚ) (pj : Nat) : Nat → Nat
  | 0 => pj - 1
  | fuel + 1 =>
    let pj' := pj - 1
    if vp < vAt v ts pj' then scanDown v ts vp pj' fuel else pj'

/-- The partition exchange loop of `aquicksort`; returns the updated index
array and the final `pi` (the pivot destination). -/
def partitionScan (v : List ℚ) (ts : List Nat) (vp : ℚ) (pi pj : Nat) :
    Nat → List Nat × Nat
  | 0 => (ts, pi)
  | fuel + 1 =>
    let pi' := scanUp v ts vp pi (v.length + 1)
    let pj' := scanDown v ts vp pj (v.length + 1)
    if pj' ≤ pi' then (ts, pi')
    else partitionScan v (lswap ts pi' pj') vp pi' pj' fuel

/-- Inner shifting loop of the insertion sort run
(`while (pj > pl && LT(vp, v[*pk])) *pj-- = *pk--;`); returns the updated
index array and the final `pj`. -/
def insShift (v : List ℚ) (vp : ℚ) (pl : Nat) (ts : List Nat) (pj : Nat) :
    Nat → List Nat × Nat
  | 0 => (ts, pj)
  | fuel + 1 =>
    if pl < pj ∧ vp < vAt v ts (pj - 1) then
      insShift v vp pl (ts.set pj (ts.getD (pj - 1) 0)) (pj - 1) fuel
    else (ts, pj)

/-- One step of the insertion sort run: insert `ts[pi]` into the sorted
segment `ts[pl..pi-1]`. -/
def insertOne (v : List ℚ) (pl : Nat) (ts : List Nat) (pi : Nat) : List Nat :=
  let vi := ts.getD pi 0
  let vp := v.getD vi 0
  let (ts', pj) := insShift v vp pl ts pi pi
  ts'.set pj vi

/-- The insertion sort run of `aquicksort` on the segment `ts[pl..pr]`
(`for (pi = pl + 1; pi <= pr; ++pi) ...`). -/
def insSortSeg (v : List ℚ) (ts : List Nat) (pl pr : Nat) : List Nat :=
  (List.range' (pl + 1) (pr + 1 - (pl + 1))).foldl (insertOne v pl) ts

/-- `a[base + k - 1]` — numpy `aheapsort` uses 1-based positions `a = tosort - 1`. -/
def hGet (ts : List Nat) (base k : Nat) : Nat :=
  ts.getD (base + k - 1) 0

/-- Write at 1-based position `k` of the heap segment. -/
def hSet (ts : List Nat) (base k : Nat) (x : Nat) : List Nat :=
  ts.set (base + k - 1) x

/-- The sift-down loop shared by both phases of `aheapsort`
(`for (i = l, j = l*2; j <= n;) ...`); returns the updated array and the
final hole position `i`. -/
def siftDown (v : List ℚ) (base : Nat) (tmp : Nat) (n : Nat) :
    List Nat → Nat → Nat → Nat → List Nat × Nat
  | ts, i, _, 0 => (ts, i)
  | ts, i, j, fuel + 1 =>
    if j ≤ n then
      let j := if j < n ∧ v.getD (hGet ts base j) 0 < v.getD (hGet ts base (j + 1)) 0
               then j + 1 else j
      if v.getD tmp 0 < v.getD (hGet ts base j) 0 then
        siftDown v base tmp n (hSet ts base i (hGet ts base j)) j (2 * j) fuel
      else (ts, i)
    else (ts, i)

/-- numpy `aheapsort` on the segment `ts[pl..pr]` — the introsort fallback
taken when the depth budget is exhausted. -/
def aheapsortSeg (v : List ℚ) (ts : List Nat) (pl pr : Nat) : List Nat :=
  let n := pr + 1 - pl
  -- heapify: for (l = n >> 1; l > 0; --l)
  let ts := (List.range (n / 2)).foldl
    (fun ts k =>
      let l := n / 2 - k
      let tmp := hGet ts pl l
      let (ts, i) := siftDown v pl tmp n ts l (2 * l) (n + 1)
      hSet ts pl i tmp) ts
  -- extract: for (; n > 1;)
  (List.range (n - 1)).foldl
    (fun ts k =>
      let m := n - k
      let tmp := hGet ts pl m
      let ts := hSet ts pl m (hGet ts pl 1)
      let m := m - 1
      let (ts, i) := siftDown v pl tmp m ts 1 2 (n + 1)
      hSet ts pl i tmp) ts

/-- Main loop of `aquicksort`: `pl, pr` delimit the current segment, `depth`
is the remaining shared depth budget (`depth_limit`) and `stack` holds the
postponed larger partitions.  A segment of more than `SMALL_QUICKSORT = 15`
elements is partitioned around the median of three; smaller segments get
the stable insertion sort run. -/
def qsLoop (v : List ℚ) : Nat → List Nat → Nat → Nat → Int →
    List (Nat × Nat) → List Nat
  | 0, ts, _, _, _, _ => ts
  | fuel + 1, ts, pl, pr, depth, stack =>
    if pl + 16 ≤ pr then
      if depth < 0 then
        let ts := aheapsortSeg v ts pl pr
        match stack with
        | [] => ts
        | (pl', pr') :: st => qsLoop v fuel ts pl' pr' (depth - 1) st
      else
        let pm := pl + (pr - pl) / 2
        let ts := if vAt v ts pm < vAt v ts pl then lswap ts pm pl else ts
        let ts := if vAt v ts pr < vAt v ts pm then lswap ts pr pm else ts
        let ts := if vAt v ts pm < vAt v ts pl then lswap ts pm pl else ts
        let vp := vAt v ts pm
        let ts := lswap ts pm (pr - 1)
        let (ts, pi) := partitionScan v ts vp pl (pr - 1) (v.length + 1)
        let ts := lswap ts pi (pr - 1)
        if pi - pl < pr - pi then
          qsLoop v fuel ts pl (pi - 1) (depth - 1) ((pi + 1, pr) :: stack)
        else
          qsLoop v fuel ts (pi + 1) pr (depth - 1) ((pl, pi - 1) :: stack)
    else
      let ts := insSortSeg v ts pl pr
      match stack with
      | [] => ts
      | (pl', pr') :: st => qsLoop v fuel ts pl' pr' depth st

/-- `np.argsort(v, kind="quicksort")` on a NaN-free value list: indices that
would sort `v` ascending; ties are ordered however the introsort leaves
them.  `depth_limit = npy_get_msb(num) * 2`. -/
def npyArgsort (v : List ℚ) : List Nat :=
  if v.length = 0 then []
  else qsLoop v (4 * v.length + 4) (List.range v.length) 0 (v.length - 1)
    (2 * (Nat.log2 v.length : Int)) []

/-- pandas `nargsort` (pandas/core/sorting.py) with the defaults used by
`DataFrame.sort_values`: `kind="quicksort"`, `na_position="last"`.  Missing
entries are split off first; for a descending sort both the values and
their indices are reversed before the ascending argsort and the resulting
indexer is reversed back. -/
def nargsort (items : List (Option ℚ)) (ascending : Bool) : List Nat :=
  let idx := List.range items.length
  let non_nan_idx0 := idx.filter (fun i => (items.getD i none).isSome)
  let nan_idx := idx.filter (fun i => (items.getD i none).isNone)
  let non_nans0 := items.filterMap id
  let non_nans := if ascending then non_nans0 else non_nans0.reverse
  let non_nan_idx := if ascending then non_nan_idx0 else non_nan_idx0.reverse
  let order := npyArgsort non_nans
  let indexer0 := order.map (fun p => non_nan_idx.getD p 0)
  let indexer := if ascending then indexer0 else indexer0.reverse
  indexer ++ nan_idx

/-- A cell of a column being sorted: pandas compares the float entries and
raises `TypeError` on a string/number comparison, which the dashboard's
numeric columns never hit. -/
def cellToNum : Cell → Except String (Option ℚ)
  | .na => .ok none
  | .num v => .ok (some v)
  | .str _ => .error "TypeError: unorderable types"

/-- `df.sort_values(by_col, ascending=...)` for a single key column with the
default `kind="quicksort"`: compute the `nargsort` indexer of the key column
and take those rows. -/
def sort_values (t : Table) (by_col : String) (ascending : Bool) :
    Except String Table := do
  let d ← t.getColE by_col
  let nums ← d.mapM cellToNum
  pure (t.takeRows (nargsort nums ascending))

/-! ### Chart shapers -/

/-- One `fig.add_bar(name=..., x=..., y=...)` trace. -/
structure BarTrace where
  name : String
  x : List Cell
  y : List Cell
deriving DecidableEq, Repr

/-- The figure built by `make_stacked_bar`: three bar traces, stacked, with
a percent y-axis. -/
structure StackedFig where
  bars : List BarTrace
  barmode : String
  title : String
  yaxisTitle : String
deriving DecidableEq, Repr

/-- `make_stacked_bar(df, y_col, pos_col, neu_col, neg_col, title)`
(lines 25-35): copies the frame, re-applies `to_pct` to the three series
columns ("ensure percentage scale 0-100"), and adds the three traces. -/
def make_stacked_bar (df : Table) (y_col pos_col neu_col neg_col : String)
    (title : String) : Except String StackedFig := do
  let plot_df := df.copy
  let plot_df ← applyColM plot_df pos_col to_pctCell
  let plot_df ← applyColM plot_df neu_col to_pctCell
  let plot_df ← applyColM plot_df neg_col to_pctCell
  let xs ← plot_df.getColE y_col
  let pos ← plot_df.getColE pos_col
  let neu ← plot_df.getColE neu_col
  let neg ← plot_df.getColE neg_col
  pure { bars := [⟨"Positive", xs, pos⟩, ⟨"Neutral", xs, neu⟩, ⟨"Negative", xs, neg⟩],
         barmode := "stack", title := title, yaxisTitle := "Percent" }

/-- The figure built by `donut`: a single-ring pie. -/
structure DonutFig where
  values : List Cell
  names : List Cell
  hole : ℚ
  title : String
deriving DecidableEq, Repr

/-- `donut(values, labels, title)` (lines 37-40): `px.pie` requires all
arguments to share one length and otherwise passes the values through
untouched — the shaper itself never normalizes. -/
def donut (values labels : List Cell) (title : String) :
    Except String DonutFig :=
  if values.length = labels.length then
    .ok { values := values, names := labels, hole := 55 / 100, title := title }
  else
    .error "ValueError: All arguments should have the same length."

/-! ### Overall Summary section -/

/-- One rendered `st.metric`.  The `f"{x:.1f}%"` digit formatting is kept as
the exact value; what is modelled of the format call is its `TypeError` on a
`None` (see `metric_block`). -/
structure MetricOut where
  label : String
  value : ℚ
deriving DecidableEq, Repr

/-- `metric_block(title, value)` (lines 22-23):
`st.metric(title, f"{to_pct(value):.1f}%")`.  When `to_pct` returns `None`
(missing input) the format specifier raises `TypeError`; a text value
raises inside `to_pct` itself. -/
def metric_block (title : String) (value : Cell) : Except String MetricOut :=
  match to_pctCell value with
  | .error e => .error e
  | .ok (.num q) => .ok ⟨title, q⟩
  | .ok _ => .error "TypeError: unsupported format string passed to NoneType.__format__"

/-- Lower-case string equality of a cell against a label, as
`overall["Category"].str.lower() == label.lower()` compares row-wise: a
non-string cell never matches. -/
def cellLowerEq (c : Cell) (label : String) : Bool :=
  match c with
  | .str s => pyLower s == pyLower label
  | _ => false

/-- `overall.loc[overall["Category"].str.lower() == label.lower(),
"Percentage"].values[0]`: the first matching row's `Percentage`, raising
`KeyError` for a missing column and `IndexError` when no row matches. -/
def lookupVal (overall : Table) (label : String) : Except String Cell := do
  let cat ← overall.getColE "Category"
  let pct ← overall.getColE "Percentage"
  match (List.zip cat pct).filter (fun p => cellLowerEq p.1 label) with
  | [] => .error "IndexError: index 0 is out of bounds"
  | p :: _ => .ok p.2

/-- The metric loop (lines 64-70): each label's lookup and `metric_block`
sit inside `try: ... except Exception: pass`, so a failure only omits that
metric. -/
def metricsLoop (overall : Table) : List MetricOut :=
  ["Positive", "Neutral", "Negative"].filterMap (fun label =>
    ((lookupVal overall label).bind (metric_block label)).toOption)

/-- `Series.round(1)` on one cell, used for the bar labels
(`text=overall["Percentage"].round(1)`).  Rounding of an exact half at the
first decimal (ties-to-even in floats) is not distinguished; no claim
exercises it. -/
def round1 : Cell → Cell
  | .num q => .num (round (q * 10) / 10)
  | c => c

/-- The `px.bar` figure of the Overall Summary section. -/
structure PxBarFig where
  x : List Cell
  y : List Cell
  text : List Cell
  yaxisTitle : String
deriving DecidableEq, Repr

/-- Everything the Overall Summary section emits. -/
structure OverallOut where
  metrics : List MetricOut
  donutFig : DonutFig
  barFig : PxBarFig
deriving DecidableEq, Repr

/-- A rendered section: either the `st.info` placeholder notice or the
section's widgets. -/
inductive SectionResult (α : Type) where
  | notice (msg : String)
  | content (a : α)
deriving DecidableEq, Repr

/-- A section body: given the section's sheet (or `none`), produce the
optional written-back table (in-place mutation of the stored frame) and the
section's output, or raise. -/
def SectionStep (α : Type) :=
  Option Table → Except String (Option Table × SectionResult α)

/-- Overall Summary section body (lines 57-80).  Note line 62 assigns the
normalized column back into `overall` itself — the very object stored in
the `sheets` dict — so the step returns the mutated table for write-back. -/
def overallStep : SectionStep OverallOut := fun ov =>
  match ov with
  | none => .ok (none, .notice "Sheet 'Overall Summary' not found.")
  | some overall =>
    if overall.isEmpty then
      .ok (none, .notice "Sheet 'Overall Summary' not found.")
    else do
      let overall ← applyColM overall "Percentage" to_pctCell
      let metrics := metricsLoop overall
      let pct ← overall.getColE "Percentage"
      let cat ← overall.getColE "Category"
      let dn ← donut pct cat "Overall Perception"
      pure (some overall,
        .content ⟨metrics, dn, ⟨cat, pct, pct.map round1, "Percent"⟩⟩)

/-! ### Top Strengths / Areas to Improve sections -/

/-- What the Strengths and Areas-to-Improve sections emit: the stacked bar
and the "View data" frame `disp.reset_index(drop=True)`. -/
structure TopNOut where
  fig : StackedFig
  view : Table
deriving DecidableEq, Repr

/-- The shared body of the two top-N sections (lines 89-94 and 105-110):
copy, normalize the three series columns, sort by `Positive`
(descending for strengths, ascending for areas to improve), keep the first
`top_n` rows, chart them. -/
def topNBody (t : Table) (ascending : Bool) (top_n : Nat) (title : String) :
    Except String TopNOut := do
  let disp := t.copy
  let disp ← applyColM disp "Positive" to_pctCell
  let disp ← applyColM disp "Neutral" to_pctCell
  let disp ← applyColM disp "Negative" to_pctCell
  let disp ← sort_values disp "Positive" ascending
  let disp := disp.head top_n
  let fig ← make_stacked_bar disp "Question" "Positive" "Neutral" "Negative" title
  pure ⟨fig, disp⟩

/-- Top Strengths section body (lines 84-96); works on a copy, so nothing
is written back. -/
def strengthsStep (top_n : Nat) : SectionStep TopNOut := fun s =>
  match s with
  | none => .ok (none, .notice "Sheet 'Top Strengths' not found.")
  | some strengths =>
    if strengths.isEmpty then
      .ok (none, .notice "Sheet 'Top Strengths' not found.")
    else do
      let out ← topNBody strengths false top_n "Top Strengths"
      pure (none, .content out)

/-- Areas to Improve section body (lines 100-112); works on a copy, so
nothing is written back. -/
def improveStep (top_n : Nat) : SectionStep TopNOut := fun s =>
  match s with
  | none => .ok (none, .notice "Sheet 'Areas to Improve' not found.")
  | some improve =>
    if improve.isEmpty then
      .ok (none, .notice "Sheet 'Areas to Improve' not found.")
    else do
      let out ← topNBody improve true top_n "Areas to Improve"
      pure (none, .content out)

/-! ### Yearly Trend section -/

/-- `df.columns[0]`. -/
def firstColName (t : Table) : String :=
  match t.cols with
  | [] => ""
  | c :: _ => c.name

/-- The data of the first column. -/
def firstColData (t : Table) : List Cell :=
  match t.cols with
  | [] => []
  | c :: _ => c.data

/-- `px.line` with a single y series. -/
structure LineFig where
  x : List Cell
  y : List Cell
  title : String
deriving DecidableEq, Repr

/-- `px.line` with a color dimension (one line per category). -/
structure MultiLineFig where
  x : List Cell
  y : List Cell
  color : List Cell
  title : String
deriving DecidableEq, Repr

/-- What the Yearly Trend section emits, one constructor per branch of the
`if "positive %" in cols` test; each carries the frame shown by the
"View data" expander. -/
inductive TrendOut where
  | singleLine (fig : LineFig) (view : Table)
  | multiLine (fig : MultiLineFig) (view : Table)
deriving DecidableEq, Repr

/-- The in-place normalization loop of the wide branch (lines 132-134):
`for col in trend.columns: if col.lower() in [...]: trend[col] =
trend[col].apply(to_pct)`. -/
def normTrendCols (t : Table) : Except String Table :=
  (t.cols.map Col.name).foldlM
    (fun acc n =>
      if pyLower n ∈ ["positive", "neutral", "negative"] then
        applyColM acc n to_pctCell
      else pure acc) t

/-- `trend.melt(id_vars=[trend.columns[0]], value_vars=[c for c in
trend.columns if c.lower() in ["positive","neutral","negative"]],
var_name="Category", value_name="Percent")`: long form, one block of rows
per value column in column order (pandas melt is column-major). -/
def meltTrend (t : Table) : Table :=
  let idData := firstColData t
  let vvars := t.cols.filter
    (fun c => pyLower c.name ∈ ["positive", "neutral", "negative"])
  ⟨[⟨firstColName t, (vvars.map (fun _ => idData)).flatten⟩,
    ⟨"Category", (vvars.map (fun c => idData.map (fun _ => Cell.str c.name))).flatten⟩,
    ⟨"Percent", (vvars.map Col.data).flatten⟩]⟩

/-- Yearly Trend section body (lines 116-141).  When a `Positive %` column
exists (matched on lower-cased names) the first branch charts it directly —
without normalizing — after renaming it to exactly `Positive %`; otherwise
the wide table's category columns are normalized in place (a write-back to
the stored sheet) and melted to long form. -/
def trendStep : SectionStep TrendOut := fun tr =>
  match tr with
  | none => .ok (none, .notice "Sheet 'Yearly Trend' not found.")
  | some trend =>
    if trend.isEmpty then
      .ok (none, .notice "Sheet 'Yearly Trend' not found.")
    else
      let cols := trend.cols.map (fun c => pyLower c.name)
      if "positive %" ∈ cols then do
        let old := (trend.cols.getD (cols.indexOf "positive %") ⟨"", []⟩).name
        let t := trend.rename old "Positive %"
        let xs ← t.getColE (firstColName t)
        let ys ← t.getColE "Positive %"
        pure (none, .content (.singleLine ⟨xs, ys, "Positive % over time"⟩ t))
      else do
        let trend ← normTrendCols trend
        let melted := meltTrend trend
        let xs ← melted.getColE (firstColName melted)
        let ys ← melted.getColE "Percent"
        let cs ← melted.getColE "Category"
        pure (some trend,
          .content (.multiLine ⟨xs, ys, cs, "Perception over time"⟩ trend))

/-! ### The page: a sheet set and the four sections in order -/

/-- The dict returned by `load_excel`: sheet name to table.  The sections
below thread it explicitly so that in-place mutation of a stored frame is
visible as an updated `SheetSet`. -/
def SheetSet := String → Option Table

/-- Store a (mutated) table under its sheet name. -/
def updateSheet (s : SheetSet) (key : String) (t : Table) : SheetSet :=
  fun k => if k = key then some t else s k

/-- Apply a section's optional write-back. -/
def applyWrite (s : SheetSet) (key : String) : Option Table → SheetSet
  | none => s
  | some t => updateSheet s key t

/-- Run one section: look its sheet up by name, run the body, apply the
write-back. -/
def runSection {α : Type} (key : String) (step : SectionStep α)
    (s : SheetSet) : Except String (SheetSet × SectionResult α) :=
  (step (s key)).map (fun r => (applyWrite s key r.1, r.2))

/-- The Overall Summary section (lines 56-80). -/
def renderOverall : SheetSet → Except String (SheetSet × SectionResult OverallOut) :=
  runSection "Overall Summary" overallStep

/-- The Top Strengths section (lines 83-96). -/
def renderStrengths (top_n : Nat) :
    SheetSet → Except String (SheetSet × SectionResult TopNOut) :=
  runSection "Top Strengths" (strengthsStep top_n)

/-- The Areas to Improve section (lines 99-112). -/
def renderImprove (top_n : Nat) :
    SheetSet → Except String (SheetSet × SectionResult TopNOut) :=
  runSection "Areas to Improve" (improveStep top_n)

/-- The Yearly Trend section (lines 115-141). -/
def renderTrend : SheetSet → Except String (SheetSet × SectionResult TrendOut) :=
  runSection "Yearly Trend" trendStep

/-- Everything one page render emits. -/
structure PageOut where
  overall : SectionResult OverallOut
  strengths : SectionResult TopNOut
  improve : SectionResult TopNOut
  trend : SectionResult TrendOut
deriving DecidableEq, Repr

/-- One top-to-bottom run of the script body: the four sections in fixed
order, each reading (and possibly mutating) its own sheet of the shared
sheet set.  An uncaught exception anywhere aborts the whole render. -/
def renderPage (s : SheetSet) (top_n : Nat) :
    Except String (SheetSet × PageOut) := do
  let r1 ← renderOverall s
  let r2 ← renderStrengths top_n r1.1
  let r3 ← renderImprove top_n r2.1
  let r4 ← renderTrend r3.1
  pure (r4.1, ⟨r1.2, r2.2, r3.2, r4.2⟩)

deriving instance DecidableEq for Except

/-! ### Concrete instances used in the theorems below -/

/-- Applying the normalizer twice, as the top-N sections end up doing
(once in the section code, once inside `make_stacked_bar`). -/
def doubleNorm (v : ℚ) : ℚ :=
  (to_pct (to_pct (some v))).getD 0

/-- A one-row strengths sheet with a symbolic `Positive` value. -/
def oneRowStrengths (v : ℚ) : Table :=
  ⟨[⟨"Question", [.str "q0"]⟩, ⟨"Positive", [.num v]⟩,
    ⟨"Neutral", [.num 10]⟩, ⟨"Negative", [.num 5]⟩]⟩

/-- The spec's top-N example sheet: ranking values `[10, 90, 50, 90]`. -/
def exampleRanking : Table :=
  ⟨[⟨"Question", [.str "q0", .str "q1", .str "q2", .str "q3"]⟩,
    ⟨"Positive", [.num 10, .num 90, .num 50, .num 90]⟩,
    ⟨"Neutral", [.num 4, .num 3, .num 2, .num 1]⟩,
    ⟨"Negative", [.num 6, .num 7, .num 8, .num 9]⟩]⟩

/-- A sheet whose `Positive` column holds `n` equal values, with questions
`q0, q1, ...` marking the original row order. -/
def allTies (n : Nat) : Table :=
  ⟨[⟨"Question", (List.range n).map (fun i => .str ("q" ++ toString i))⟩,
    ⟨"Positive", List.replicate n (.num 50)⟩,
    ⟨"Neutral", List.replicate n (.num 30)⟩,
    ⟨"Negative", List.replicate n (.num 20)⟩]⟩

/-- The `Question` labels of the first `k` displayed rows. -/
def topQuestions (r : TopNOut) : Option (List Cell) :=
  r.view.getCol "Question"

/-- A three-row Overall Summary sheet with fractional percentages. -/
def ovTable : Table :=
  ⟨[⟨"Category", [.str "Positive", .str "Neutral", .str "Negative"]⟩,
    ⟨"Percentage", [.num (1 / 2), .num (3 / 10), .num (1 / 5)]⟩]⟩

/-- `ovTable` after line 62 has normalized its `Percentage` column. -/
def ovTableNorm : Table :=
  ⟨[⟨"Category", [.str "Positive", .str "Neutral", .str "Negative"]⟩,
    ⟨"Percentage", [.num 50, .num 30, .num 20]⟩]⟩

/-- A sheet set holding only the Overall Summary sheet. -/
def ovSheets : SheetSet :=
  fun k => if k = "Overall Summary" then some ovTable else none

/-- A sheet set holding only a Top Strengths sheet. -/
def stSheets : SheetSet :=
  fun k => if k = "Top Strengths" then some exampleRanking else none

/-- A sheet set holding only an Areas-to-Improve sheet. -/
def imSheets : SheetSet :=
  fun k => if k = "Areas to Improve" then some exampleRanking else none

/-- The spec's wide trend example:
`{Year:[2020,2021], Positive:[0.8,0.9], Neutral:[0.15,0.05], Negative:[0.05,0.05]}`. -/
def wideTrend : Table :=
  ⟨[⟨"Year", [.num 2020, .num 2021]⟩,
    ⟨"Positive", [.num (8 / 10), .num (9 / 10)]⟩,
    ⟨"Neutral", [.num (15 / 100), .num (5 / 100)]⟩,
    ⟨"Negative", [.num (5 / 100), .num (5 / 100)]⟩]⟩

/-- `wideTrend` after the in-place normalization loop (lines 132-134). -/
def wideTrendNorm : Table :=
  ⟨[⟨"Year", [.num 2020, .num 2021]⟩,
    ⟨"Positive", [.num 80, .num 90]⟩,
    ⟨"Neutral", [.num 15, .num 5]⟩,
    ⟨"Negative", [.num 5, .num 5]⟩]⟩

/-- A sheet set holding only the wide Yearly Trend sheet. -/
def trendSheets : SheetSet :=
  fun k => if k = "Yearly Trend" then some wideTrend else none

/-- Observer: is a trend section result the single-line branch? -/
def isSingleLine : SectionResult TrendOut → Bool
  | .content (.singleLine _ _) => true
  | _ => false

/-- A full sheet set with all four expected sheets. -/
def fullSheets : SheetSet := fun k =>
  if k = "Overall Summary" then some ovTable
  else if k = "Top Strengths" then some exampleRanking
  else if k = "Areas to Improve" then some exampleRanking
  else if k = "Yearly Trend" then some wideTrend
  else none

/-- `fullSheets` with the Areas-to-Improve sheet removed. -/
def noImpSheets : SheetSet := fun k =>
  if k = "Areas to Improve" then none else fullSheets k

/-! ## Theorems -/

/-- The Top Strengths body never writes a table back. -/
theorem strengthsStep_no_write {n : Nat} {inp : Option Table}
    {res : Option Table × SectionResult TopNOut}
    (h : strengthsStep n inp = .ok res) : res.1 = none := by
  cases inp with
  | none =>
    simp only [strengthsStep] at h
    cases h
    rfl
  | some tb =>
    simp only [strengthsStep] at h
    split at h
    · cases h
      rfl
    · cases htb : topNBody tb false n "Top Strengths" with
      | error e => rw [htb] at h; cases h
      | ok out =>
        rw [htb] at h
        cases h
        rfl

/-- The Areas to Improve body never writes a table back. -/
theorem improveStep_no_write {n : Nat} {inp : Option Table}
    {res : Option Table × SectionResult TopNOut}
    (h : improveStep n inp = .ok res) : res.1 = none := by
  cases inp with
  | none =>
    simp only [improveStep] at h
    cases h
    rfl
  | some tb =>
    simp only [improveStep] at h
    split at h
    · cases h
      rfl
    · cases htb : topNBody tb true n "Areas to Improve" with
      | error e => rw [htb] at h; cases h
      | ok out =>
        rw [htb] at h
        cases h
        rfl

/-- **C1.** The percentage normalizer `to_pct` satisfies its contract: a
missing input yields the missing value, and a numeric `v` yields `v * 100`
when `v ≤ 1` and `v` unchanged otherwise. -/
theorem to_pct_contract :
    to_pct none = none ∧
    (∀ v : ℚ, v ≤ 1 → to_pct (some v) = some (v * 100)) ∧
    (∀ v : ℚ, 1 < v → to_pct (some v) = some v) := by
  refine ⟨rfl, fun v h => ?_, fun v h => ?_⟩
  · simp [to_pct, h]
  · simp [to_pct, not_le.mpr h]

/-- Witness for `to_pct_contract` at `v = 1/2` and `v = 250`. -/
theorem to_pct_contract_witness :
    to_pct (some ((1 : ℚ) / 2)) = some ((1 : ℚ) / 2 * 100) ∧
    to_pct (some (250 : ℚ)) = some (250 : ℚ) :=
  ⟨to_pct_contract.2.1 _ (by norm_num), to_pct_contract.2.2 _ (by norm_num)⟩

/-- **C4.** Normalization is idempotent on already-normalized values
(`v > 1` passes through unchanged, so a second application changes
nothing), but it is not idempotent in general: there is a non-missing
`v ≤ 1` on which applying `to_pct` twice differs from applying it once. -/
theorem to_pct_idempotence_asymmetry :
    (∀ v : ℚ, 1 < v → to_pct (some v) = some v ∧
      to_pct (to_pct (some v)) = to_pct (some v)) ∧
    (∃ v : ℚ, v ≤ 1 ∧ to_pct (to_pct (some v)) ≠ to_pct (some v)) := by
  constructor
  · intro v h
    have h1 : to_pct (some v) = some v := by simp [to_pct, not_le.mpr h]
    exact ⟨h1, by rw [h1]; exact h1⟩
  · exact ⟨1 / 100, by norm_num, by norm_num [to_pct]⟩

/-- Witness for `to_pct_idempotence_asymmetry` at `v = 40`. -/
theorem to_pct_idempotence_asymmetry_witness :
    to_pct (some (40 : ℚ)) = some (40 : ℚ) ∧
    to_pct (to_pct (some (40 : ℚ))) = to_pct (some (40 : ℚ)) :=
  to_pct_idempotence_asymmetry.1 40 (by norm_num)

set_option maxHeartbeats 1600000 in
/-- **C5.** In the top-N sections every series value is normalized twice —
once by the section code and once more inside `make_stacked_bar` — so the
charted value is `to_pct (to_pct v)`: for `0 < v ≤ 1/100` that is
`v * 10000` (not `v * 100`), while for `v > 1/100` the second application
changes nothing.  The last conjunct exhibits the double application on the
pipeline itself, for every one-row strengths sheet. -/
theorem stacked_double_normalization :
    (∀ v : ℚ, 0 < v → v ≤ 1 / 100 →
      to_pct (to_pct (some v)) = some (v * 10000) ∧ v * 10000 ≠ v * 100) ∧
    (∀ v : ℚ, 1 / 100 < v →
      to_pct (to_pct (some v)) = to_pct (some v)) ∧
    (∀ v : ℚ,
      (topNBody (oneRowStrengths v) false 5 "Top Strengths").map
          (fun r => r.fig.bars.map BarTrace.y) =
        .ok [[.num (doubleNorm v)], [.num 10], [.num 5]]) := by
  refine ⟨fun v h0 h1 => ⟨?_, ?_⟩, fun v h => ?_, fun v => ?_⟩
  · have hv1 : v ≤ 1 := h1.trans (by norm_num)
    have hv2 : v * 100 ≤ 1 := by linarith
    simp [to_pct, hv1, hv2]
    ring
  · intro hc
    exact absurd (mul_left_cancel₀ (ne_of_gt h0) hc) (by norm_num)
  · by_cases hv1 : v ≤ 1
    · have : ¬ v * 100 ≤ 1 := by
        intro hc
        nlinarith
      simp [to_pct, hv1, this]
    · simp [to_pct, hv1]
  · rfl

set_option maxRecDepth 40000 in
/-- **C2 (counterexample).** Top-N tie-breaking does not follow the
original row order: on a 17-row Areas-to-Improve sheet whose `Positive`
values are all equal, the first five selected rows are the original rows
0, 14, 13, 12, 11 — numpy's default quicksort partitions (rather than
insertion-sorts) a 17-element segment and scrambles ties. -/
theorem topn_tie_order_counterexample :
    (topNBody (allTies 17) true 5 "Areas to Improve").map topQuestions =
      .ok (some [.str "q0", .str "q14", .str "q13", .str "q12", .str "q11"]) ∧
    (topNBody (allTies 17) true 5 "Areas to Improve").map topQuestions ≠
      .ok (some [.str "q0", .str "q1", .str "q2", .str "q3", .str "q4"]) := by
  constructor
  · rfl
  · decide

set_option maxRecDepth 40000 in
/-- **C2 (amended).** Top-N selection sorts rows by the normalized
`Positive` column (descending for strengths, ascending for areas to
improve) and takes the first N rows; ties keep the original row order only
while the underlying numpy argsort stays on its insertion-sort path
(segments of at most 16 rows), not in general.  For ranking values
`[10, 90, 50, 90]` with N = 2 descending the result is the rows at
original indices 1 and 3, in that order; on 16-row all-tie sheets both
directions preserve the original order. -/
theorem topn_selection_amended :
    (topNBody exampleRanking false 2 "Top Strengths").map topQuestions =
      .ok (some [.str "q1", .str "q3"]) ∧
    (topNBody (allTies 16) true 5 "Areas to Improve").map topQuestions =
      .ok (some [.str "q0", .str "q1", .str "q2", .str "q3", .str "q4"]) ∧
    (topNBody (allTies 16) false 5 "Top Strengths").map topQuestions =
      .ok (some [.str "q0", .str "q1", .str "q2", .str "q3", .str "q4"]) :=
  ⟨rfl, rfl, rfl⟩

/-- Witness for `stacked_double_normalization` at `v = 1/200`, `v = 2`. -/
theorem stacked_double_normalization_witness :
    (to_pct (to_pct (some ((1 : ℚ) / 200))) = some ((1 : ℚ) / 200 * 10000) ∧
      (1 : ℚ) / 200 * 10000 ≠ (1 : ℚ) / 200 * 100) ∧
    to_pct (to_pct (some (2 : ℚ))) = to_pct (some (2 : ℚ)) ∧
    (topNBody (oneRowStrengths (3 : ℚ)) false 5 "Top Strengths").map
        (fun r => r.fig.bars.map BarTrace.y) =
      .ok [[.num (doubleNorm 3)], [.num 10], [.num 5]] :=
  ⟨stacked_double_normalization.1 _ (by norm_num) (by norm_num),
   stacked_double_normalization.2.1 _ (by norm_num),
   stacked_double_normalization.2.2 3⟩

set_option maxRecDepth 40000 in
/-- **C3 (counterexample).** The stored sheet table is not left unchanged
by rendering: after the Overall Summary section runs on a sheet set whose
`Percentage` column is `[0.5, 0.3, 0.2]`, the table stored under
`Overall Summary` holds the normalized `[50, 30, 20]` — line 62 assigns
the normalized column into the cached frame itself. -/
theorem sheetset_mutation_counterexample :
    (renderOverall ovSheets).map (fun r => r.1 "Overall Summary") =
      .ok (some ovTableNorm) ∧
    some ovTableNorm ≠ ovSheets "Overall Summary" := by
  constructor
  · with_unfolding_all rfl
  · with_unfolding_all decide

/-- `Except.bind` on a success, for stepping through the section bodies. -/
theorem except_bind_ok {ε α β : Type} (x : α) (k : α → Except ε β) :
    (Except.ok x : Except ε α) >>= k = k x := rfl

/-- `Except.bind` on a failure. -/
theorem except_bind_error {ε α β : Type} (e : ε) (k : α → Except ε β) :
    (Except.error e : Except ε α) >>= k = .error e := rfl

/-- **C3 (amended).** The Strengths and Areas-to-Improve sections operate
on fresh copies and leave the stored sheet set unchanged, but the Overall
Summary section and the wide branch of the Yearly Trend section normalize
columns of the stored table in place: after those sections render, the
sheet set holds the normalized table instead of the loaded one. -/
theorem sheet_mutation_amended :
    (∀ (s : SheetSet) (n : Nat) (r : SheetSet × SectionResult TopNOut),
      renderStrengths n s = .ok r → r.1 = s) ∧
    (∀ (s : SheetSet) (n : Nat) (r : SheetSet × SectionResult TopNOut),
      renderImprove n s = .ok r → r.1 = s) ∧
    (∀ (s : SheetSet) (t t' : Table) (r : SheetSet × SectionResult OverallOut),
      s "Overall Summary" = some t → t.isEmpty = false →
      applyColM t "Percentage" to_pctCell = .ok t' →
      renderOverall s = .ok r →
      r.1 = updateSheet s "Overall Summary" t') ∧
    (∀ (s : SheetSet) (t t' : Table) (r : SheetSet × SectionResult TrendOut),
      s "Yearly Trend" = some t → t.isEmpty = false →
      "positive %" ∉ t.cols.map (fun c => pyLower c.name) →
      normTrendCols t = .ok t' →
      renderTrend s = .ok r →
      r.1 = updateSheet s "Yearly Trend" t') := by
  refine ⟨?_, ?_, ?_, ?_⟩
  · intro s n r hr
    simp only [renderStrengths, runSection] at hr
    cases hstep : strengthsStep n (s "Top Strengths") with
    | error e => rw [hstep] at hr; cases hr
    | ok res =>
      rw [hstep] at hr
      cases hr
      simp [applyWrite, strengthsStep_no_write hstep]
  · intro s n r hr
    simp only [renderImprove, runSection] at hr
    cases hstep : improveStep n (s "Areas to Improve") with
    | error e => rw [hstep] at hr; cases hr
    | ok res =>
      rw [hstep] at hr
      cases hr
      simp [applyWrite, improveStep_no_write hstep]
  · intro s t t' r hs hemp happ hr
    simp only [renderOverall, runSection, hs] at hr
    simp only [overallStep, hemp, Bool.false_eq_true, if_false] at hr
    rw [happ, except_bind_ok] at hr
    cases h1 : t'.getColE "Percentage" with
    | error e => rw [h1, except_bind_error] at hr; simp [Except.map] at hr
    | ok pct =>
      rw [h1, except_bind_ok] at hr
      cases h2 : t'.getColE "Category" with
      | error e => rw [h2, except_bind_error] at hr; simp [Except.map] at hr
      | ok cat =>
        rw [h2, except_bind_ok] at hr
        cases h3 : donut pct cat "Overall Perception" with
        | error e => rw [h3, except_bind_error] at hr; simp [Except.map] at hr
        | ok dn =>
          rw [h3, except_bind_ok] at hr
          cases hr
          simp [applyWrite, updateSheet]
  · intro s t t' r hs hemp hmem hnorm hr
    simp only [renderTrend, runSection, hs] at hr
    simp only [trendStep, hemp, Bool.false_eq_true, if_false] at hr
    rw [if_neg hmem, hnorm, except_bind_ok] at hr
    cases h1 : (meltTrend t').getColE (firstColName (meltTrend t')) with
    | error e => rw [h1, except_bind_error] at hr; simp [Except.map] at hr
    | ok xs =>
      rw [h1, except_bind_ok] at hr
      cases h2 : (meltTrend t').getColE "Percent" with
      | error e => rw [h2, except_bind_error] at hr; simp [Except.map] at hr
      | ok ys =>
        rw [h2, except_bind_ok] at hr
        cases h3 : (meltTrend t').getColE "Category" with
        | error e => rw [h3, except_bind_error] at hr; simp [Except.map] at hr
        | ok cs =>
          rw [h3, except_bind_ok] at hr
          cases hr
          simp [applyWrite, updateSheet]

set_option maxRecDepth 40000 in
/-- Witness for `sheet_mutation_amended`: each part applied to a concrete
one-sheet set. -/
theorem sheet_mutation_amended_witness :
    (renderStrengths 5 stSheets).map Prod.fst = .ok stSheets ∧
    (renderImprove 5 imSheets).map Prod.fst = .ok imSheets ∧
    (renderOverall ovSheets).map Prod.fst =
      .ok (updateSheet ovSheets "Overall Summary" ovTableNorm) ∧
    (renderTrend trendSheets).map Prod.fst =
      .ok (updateSheet trendSheets "Yearly Trend" wideTrendNorm) := by
  refine ⟨?_, ?_, ?_, ?_⟩
  · cases hr : renderStrengths 5 stSheets with
    | error e =>
      have hok : (renderStrengths 5 stSheets).toOption.isSome = true := by
        with_unfolding_all rfl
      rw [hr] at hok
      simp [Except.toOption] at hok
    | ok r =>
      simp [Except.map, sheet_mutation_amended.1 stSheets 5 r hr]
  · cases hr : renderImprove 5 imSheets with
    | error e =>
      have hok : (renderImprove 5 imSheets).toOption.isSome = true := by
        with_unfolding_all rfl
      rw [hr] at hok
      simp [Except.toOption] at hok
    | ok r =>
      simp [Except.map, sheet_mutation_amended.2.1 imSheets 5 r hr]
  · cases hr : renderOverall ovSheets with
    | error e =>
      have hok : (renderOverall ovSheets).toOption.isSome = true := by
        with_unfolding_all rfl
      rw [hr] at hok
      simp [Except.toOption] at hok
    | ok r =>
      simp [Except.map,
        sheet_mutation_amended.2.2.1 ovSheets ovTable ovTableNorm r
          (by with_unfolding_all rfl) (by with_unfolding_all rfl)
          (by with_unfolding_all rfl) hr]
  · cases hr : renderTrend trendSheets with
    | error e =>
      have hok : (renderTrend trendSheets).toOption.isSome = true := by
        with_unfolding_all rfl
      rw [hr] at hok
      simp [Except.toOption] at hok
    | ok r =>
      simp [Except.map,
        sheet_mutation_amended.2.2.2 trendSheets wideTrend wideTrendNorm r
          (by with_unfolding_all rfl) (by with_unfolding_all rfl)
          (by with_unfolding_all decide) (by with_unfolding_all rfl) hr]

/-- Column update then lookup at the same name yields the new data. -/
theorem getCol_setCol_self (t : Table) (n : String) (d : List Cell) :
    (t.setCol n d).getCol n = some d := by
  simp only [Table.setCol]
  split
  · rename_i hex
    simp only [Table.getCol] at hex ⊢
    obtain ⟨c0, hc0⟩ : ∃ c0, t.cols.find? (fun c => c.name == n) = some c0 :=
      Option.isSome_iff_exists.mp hex
    have hpg : ((fun c : Col => c.name == n) ∘ fun c : Col =>
        if c.name == n then ⟨c.name, d⟩ else c) =
        fun c : Col => c.name == n := by
      funext c
      show ((if c.name == n then (⟨c.name, d⟩ : Col) else c).name == n) =
        (c.name == n)
      by_cases hc : (c.name == n) = true
      · rw [if_pos hc]
      · rw [if_neg hc]
    rw [List.find?_map, hpg, hc0]
    have hp : (c0.name == n) = true :=
      List.find?_some (p := fun c : Col => c.name == n) hc0
    have he : c0.name = n := by simpa using hp
    simp [he]
  · rename_i hex
    simp only [Table.getCol] at hex ⊢
    have hnone : t.cols.find? (fun c => c.name == n) = none := by
      cases h : t.cols.find? (fun c => c.name == n) with
      | none => rfl
      | some c => exact absurd (by simp [h]) hex
    rw [List.find?_append, hnone]
    simp

/-- Column update then lookup at a different name is unchanged. -/
theorem getCol_setCol_other (t : Table) {m n : String} (h : m ≠ n)
    (d : List Cell) : (t.setCol n d).getCol m = t.getCol m := by
  simp only [Table.setCol]
  split
  · simp only [Table.getCol]
    have hpg : ((fun c : Col => c.name == m) ∘ fun c : Col =>
        if c.name == n then ⟨c.name, d⟩ else c) =
        fun c : Col => c.name == m := by
      funext c
      show ((if c.name == n then (⟨c.name, d⟩ : Col) else c).name == m) =
        (c.name == m)
      by_cases hc : (c.name == n) = true
      · rw [if_pos hc]
      · rw [if_neg hc]
    rw [List.find?_map, hpg]
    cases hc0 : t.cols.find? (fun c => c.name == m) with
    | none => rfl
    | some c0 =>
      have hp : (c0.name == m) = true :=
        List.find?_some (p := fun c : Col => c.name == m) hc0
      have hne : ¬ c0.name = n := by
        have hm : c0.name = m := by simpa using hp
        simpa [hm] using h
      simp [hne]
  · simp only [Table.getCol]
    rw [List.find?_append]
    have hsing : List.find? (fun c => c.name == m) [(⟨n, d⟩ : Col)] = none := by
      simp [List.find?, show (n == m) = false from by simpa using h.symm]
    rw [hsing]
    cases t.cols.find? (fun c => c.name == m) <;> rfl

/-- Lookups of empty columns survive `setCol n []`, with or without a name
collision. -/
theorem getCol_setCol_empty (t : Table) (n m : String)
    (h : t.getCol m = some []) : (t.setCol n []).getCol m = some [] := by
  by_cases hmn : m = n
  · subst hmn
    exact getCol_setCol_self t m []
  · rw [getCol_setCol_other t hmn]
    exact h

/-- A successful `df[c] = df[c].apply(f)`. -/
theorem applyColM_ok {t : Table} {n : String} {d d' : List Cell}
    {f : Cell → Except String Cell} (h1 : t.getCol n = some d)
    (h2 : d.mapM f = .ok d') : applyColM t n f = .ok (t.setCol n d') := by
  simp only [applyColM, Table.getColE, h1]
  rw [except_bind_ok, h2, except_bind_ok]
  rfl

/-- **C6.** The donut shaper passes its values through unchanged (it never
normalizes; the caller does), whereas `make_stacked_bar` normalizes each of
its three series columns via the percentage normalizer before building the
chart: its traces carry the `to_pct`-mapped column data against the
untouched category column. -/
theorem donut_stacked_normalization :
    (∀ (values labels : List Cell) (ti : String),
      values.length = labels.length →
      (donut values labels ti).map DonutFig.values = .ok values) ∧
    (∀ (t : Table) (y p q g ti : String) (dy dp dq dg dp' dq' dg' : List Cell),
      y ≠ p → y ≠ q → y ≠ g → p ≠ q → p ≠ g → q ≠ g →
      t.getCol y = some dy → t.getCol p = some dp → t.getCol q = some dq →
      t.getCol g = some dg →
      dp.mapM to_pctCell = .ok dp' → dq.mapM to_pctCell = .ok dq' →
      dg.mapM to_pctCell = .ok dg' →
      make_stacked_bar t y p q g ti =
        .ok ⟨[⟨"Positive", dy, dp'⟩, ⟨"Neutral", dy, dq'⟩,
          ⟨"Negative", dy, dg'⟩], "stack", ti, "Percent"⟩) := by
  constructor
  · intro values labels ti h
    rw [donut, if_pos h]
    rfl
  · intro t y p q g ti dy dp dq dg dp' dq' dg'
    intro hyp hyq hyg hpq hpg hqg hy hp hq hg hmp hmq hmg
    have g1 : (t.setCol p dp').getCol q = some dq := by
      rw [getCol_setCol_other t (Ne.symm hpq)]
      exact hq
    have g2 : ((t.setCol p dp').setCol q dq').getCol g = some dg := by
      rw [getCol_setCol_other _ (Ne.symm hqg), getCol_setCol_other t (Ne.symm hpg)]
      exact hg
    have gy : (((t.setCol p dp').setCol q dq').setCol g dg').getCol y = some dy := by
      rw [getCol_setCol_other _ hyg, getCol_setCol_other _ hyq,
        getCol_setCol_other t hyp]
      exact hy
    have gp : (((t.setCol p dp').setCol q dq').setCol g dg').getCol p = some dp' := by
      rw [getCol_setCol_other _ hpg, getCol_setCol_other _ hpq]
      exact getCol_setCol_self t p dp'
    have gq : (((t.setCol p dp').setCol q dq').setCol g dg').getCol q = some dq' := by
      rw [getCol_setCol_other _ hqg]
      exact getCol_setCol_self _ q dq'
    have gg : (((t.setCol p dp').setCol q dq').setCol g dg').getCol g = some dg' :=
      getCol_setCol_self _ g dg'
    simp only [make_stacked_bar, Table.copy]
    rw [applyColM_ok hp hmp, except_bind_ok, applyColM_ok g1 hmq, except_bind_ok,
      applyColM_ok g2 hmg, except_bind_ok]
    simp only [Table.getColE, gy, gp, gq, gg]
    rw [except_bind_ok, except_bind_ok, except_bind_ok, except_bind_ok]
    rfl

/-- Witness for `donut_stacked_normalization` on a two-slice donut and the
one-row strengths sheet. -/
theorem donut_stacked_normalization_witness :
    (donut [.num 30, .num 70] [.str "a", .str "b"] "D").map DonutFig.values =
      .ok [.num 30, .num 70] ∧
    make_stacked_bar (oneRowStrengths 3) "Question" "Positive" "Neutral"
        "Negative" "T" =
      .ok ⟨[⟨"Positive", [.str "q0"], [.num 3]⟩,
        ⟨"Neutral", [.str "q0"], [.num 10]⟩,
        ⟨"Negative", [.str "q0"], [.num 5]⟩], "stack", "T", "Percent"⟩ := by
  constructor
  · exact donut_stacked_normalization.1 _ _ "D" rfl
  · exact donut_stacked_normalization.2 (oneRowStrengths 3) "Question" "Positive"
      "Neutral" "Negative" "T" [.str "q0"] [.num 3] [.num 10] [.num 5]
      [.num 3] [.num 10] [.num 5]
      (by decide) (by decide) (by decide) (by decide) (by decide) (by decide)
      rfl rfl rfl rfl (by with_unfolding_all rfl) (by with_unfolding_all rfl)
      (by with_unfolding_all rfl)

/-- **C10.** The chart shapers never raise on empty input: on a zero-row
table that has the expected columns, `make_stacked_bar` returns an empty
chart description, and `donut` on empty value and label sequences returns
an empty chart description. -/
theorem shapers_empty_ok :
    (∀ (t : Table) (y p q g ti : String),
      t.getCol y = some [] → t.getCol p = some [] → t.getCol q = some [] →
      t.getCol g = some [] →
      make_stacked_bar t y p q g ti =
        .ok ⟨[⟨"Positive", [], []⟩, ⟨"Neutral", [], []⟩, ⟨"Negative", [], []⟩],
          "stack", ti, "Percent"⟩) ∧
    (∀ ti : String, donut [] [] ti = .ok ⟨[], [], 55 / 100, ti⟩) := by
  constructor
  · intro t y p q g ti hy hp hq hg
    have g1 : (t.setCol p []).getCol q = some [] :=
      getCol_setCol_empty t p q hq
    have g2 : ((t.setCol p []).setCol q []).getCol g = some [] :=
      getCol_setCol_empty _ q g (getCol_setCol_empty t p g hg)
    have gy : (((t.setCol p []).setCol q []).setCol g []).getCol y = some [] :=
      getCol_setCol_empty _ g y
        (getCol_setCol_empty _ q y (getCol_setCol_empty t p y hy))
    have gp : (((t.setCol p []).setCol q []).setCol g []).getCol p = some [] :=
      getCol_setCol_empty _ g p
        (getCol_setCol_empty _ q p (getCol_setCol_self t p []))
    have gq : (((t.setCol p []).setCol q []).setCol g []).getCol q = some [] :=
      getCol_setCol_empty _ g q (getCol_setCol_self _ q [])
    have gg : (((t.setCol p []).setCol q []).setCol g []).getCol g = some [] :=
      getCol_setCol_self _ g []
    simp only [make_stacked_bar, Table.copy]
    have hnil : List.mapM to_pctCell [] = .ok [] := rfl
    rw [applyColM_ok hp hnil, except_bind_ok, applyColM_ok g1 hnil,
      except_bind_ok, applyColM_ok g2 hnil, except_bind_ok]
    simp only [Table.getColE, gy, gp, gq, gg]
    rw [except_bind_ok, except_bind_ok, except_bind_ok, except_bind_ok]
    rfl
  · intro ti
    rw [donut, if_pos rfl]

/-- Witness for `shapers_empty_ok` on a four-column zero-row sheet. -/
theorem shapers_empty_ok_witness :
    make_stacked_bar
        ⟨[⟨"Question", []⟩, ⟨"Positive", []⟩, ⟨"Neutral", []⟩, ⟨"Negative", []⟩]⟩
        "Question" "Positive" "Neutral" "Negative" "Top Strengths" =
      .ok ⟨[⟨"Positive", [], []⟩, ⟨"Neutral", [], []⟩, ⟨"Negative", [], []⟩],
        "stack", "Top Strengths", "Percent"⟩ ∧
    donut [] [] "Overall Perception" =
      .ok ⟨[], [], 55 / 100, "Overall Perception"⟩ :=
  ⟨shapers_empty_ok.1 _ "Question" "Positive" "Neutral" "Negative"
      "Top Strengths" rfl rfl rfl rfl,
    shapers_empty_ok.2 "Overall Perception"⟩

/-- **C9.** A per-value missing entry is silently omitted from the summary
metrics rather than causing an error: when the `Positive` lookup yields a
missing `Percentage` (or fails because the row or a column is absent), the
metric loop still returns normally, with only that metric dropped and the
other two present. -/
theorem missing_metric_omitted :
    ∀ (t : Table) (m g : ℚ),
      (lookupVal t "Positive" = .ok Cell.na ∨
        ∃ e, lookupVal t "Positive" = .error e) →
      lookupVal t "Neutral" = .ok (.num m) →
      lookupVal t "Negative" = .ok (.num g) →
      metricsLoop t =
        [⟨"Neutral", (to_pct (some m)).getD 0⟩,
         ⟨"Negative", (to_pct (some g)).getD 0⟩] := by
  intro t m g hpos hneu hneg
  have hn : ((lookupVal t "Neutral").bind (metric_block "Neutral")).toOption =
      some ⟨"Neutral", (to_pct (some m)).getD 0⟩ := by
    rw [hneu]
    by_cases hm : m ≤ 1 <;>
      simp [Except.bind, metric_block, to_pctCell, to_pct, Except.toOption, hm]
  have hg : ((lookupVal t "Negative").bind (metric_block "Negative")).toOption =
      some ⟨"Negative", (to_pct (some g)).getD 0⟩ := by
    rw [hneg]
    by_cases hq : g ≤ 1 <;>
      simp [Except.bind, metric_block, to_pctCell, to_pct, Except.toOption, hq]
  have hp : ((lookupVal t "Positive").bind (metric_block "Positive")).toOption =
      none := by
    rcases hpos with h | ⟨e, h⟩ <;>
      simp [h, Except.bind, metric_block, to_pctCell, Except.toOption]
  simp [metricsLoop, List.filterMap, hp, hn, hg]

/-- Witness for `missing_metric_omitted`: an Overall Summary sheet whose
`Positive` percentage is missing. -/
theorem missing_metric_omitted_witness :
    metricsLoop
        ⟨[⟨"Category", [.str "Positive", .str "Neutral", .str "Negative"]⟩,
          ⟨"Percentage", [.na, .num 30, .num 20]⟩]⟩ =
      [⟨"Neutral", (to_pct (some 30)).getD 0⟩,
       ⟨"Negative", (to_pct (some 20)).getD 0⟩] :=
  missing_metric_omitted _ 30 20 (Or.inl (by with_unfolding_all rfl))
    (by with_unfolding_all rfl) (by with_unfolding_all rfl)

/-- **C7.** The trend shaper produces a single line series when a
`Positive %` column is present (matched case-insensitively) and writes
nothing back; otherwise it normalizes the wide table's category columns
and reshapes it to long form: the spec's wide example melts to exactly six
`(Year, Category, Percent)` rows with `Percent = [80,90,15,5,5,5]` in
category-major order. -/
theorem trend_shapes :
    (∀ t : Table, t.isEmpty = false →
      "positive %" ∈ t.cols.map (fun c => pyLower c.name) →
      (trendStep (some t)).map (fun r => (r.1, isSingleLine r.2)) =
        .ok (none, true)) ∧
    trendStep (some wideTrend) =
      .ok (some wideTrendNorm, .content (.multiLine
        ⟨[.num 2020, .num 2021, .num 2020, .num 2021, .num 2020, .num 2021],
         [.num 80, .num 90, .num 15, .num 5, .num 5, .num 5],
         [.str "Positive", .str "Positive", .str "Neutral", .str "Neutral",
          .str "Negative", .str "Negative"],
         "Perception over time"⟩ wideTrendNorm)) := by
  constructor
  · intro t hemp hmem
    have hi : (t.cols.map (fun c => pyLower c.name)).indexOf "positive %" <
        (t.cols.map (fun c => pyLower c.name)).length :=
      List.indexOf_lt_length.mpr hmem
    have hi' : (t.cols.map (fun c => pyLower c.name)).indexOf "positive %" <
        t.cols.length := by simpa using hi
    have hcne : t.cols ≠ [] := by
      intro hc
      rw [Table.isEmpty, hc] at hemp
      simp [List.isEmpty] at hemp
    obtain ⟨c0, l0, hc0⟩ : ∃ c0 l0, t.cols = c0 :: l0 := by
      cases hls : t.cols with
      | nil => exact absurd hls hcne
      | cons a l => exact ⟨a, l, rfl⟩
    simp only [trendStep, hemp, Bool.false_eq_true, if_false, if_pos hmem]
    set o := (t.cols.getD
      ((t.cols.map (fun c => pyLower c.name)).indexOf "positive %") ⟨"", []⟩).name
      with ho
    have hio : o = (t.cols.get ⟨(t.cols.map
        (fun c => pyLower c.name)).indexOf "positive %", hi'⟩).name := by
      rw [ho, List.getD_eq_getElem _ _ hi']
      simp
    have hrcols : (t.rename o "Positive %").cols =
        t.cols.map (fun c => if c.name == o then ⟨"Positive %", c.data⟩ else c) := by
      rfl
    have hysCol : ∃ dd, (t.rename o "Positive %").getCol "Positive %" = some dd := by
      have hmm : ∃ x, x ∈ (t.rename o "Positive %").cols ∧
          (x.name == "Positive %") = true := by
        rw [hrcols]
        refine ⟨⟨"Positive %", (t.cols.get ⟨(t.cols.map
          (fun c => pyLower c.name)).indexOf "positive %", hi'⟩).data⟩, ?_, by simp⟩
        rw [List.mem_map]
        refine ⟨t.cols.get ⟨(t.cols.map
          (fun c => pyLower c.name)).indexOf "positive %", hi'⟩,
          List.get_mem t.cols _ hi', ?_⟩
        rw [if_pos (show ((t.cols.get ⟨(t.cols.map
          (fun c => pyLower c.name)).indexOf "positive %", hi'⟩).name == o) = true by
          rw [hio]; exact beq_self_eq_true _)]
      obtain ⟨c2, hc2⟩ := Option.isSome_iff_exists.mp (List.find?_isSome.mpr hmm)
      exact ⟨c2.data, by simp [Table.getCol, hc2]⟩
    have hxsCol : ∃ dd, (t.rename o "Positive %").getCol
        (firstColName (t.rename o "Positive %")) = some dd := by
      have hfc : (t.rename o "Positive %").cols =
          (if c0.name == o then ⟨"Positive %", c0.data⟩ else c0) ::
            l0.map (fun c => if c.name == o then ⟨"Positive %", c.data⟩ else c) := by
        rw [hrcols, hc0]
        rfl
      refine ⟨(if c0.name == o then (⟨"Positive %", c0.data⟩ : Col) else c0).data, ?_⟩
      rw [Table.getCol, firstColName, hfc]
      rw [List.find?_cons_of_pos _ (by simp)]
      rfl
    obtain ⟨dx, hdx⟩ := hxsCol
    obtain ⟨dy, hdy⟩ := hysCol
    have hgx : (t.rename o "Positive %").getColE
        (firstColName (t.rename o "Positive %")) = .ok dx := by
      rw [Table.getColE, hdx]
    have hgy : (t.rename o "Positive %").getColE "Positive %" = .ok dy := by
      rw [Table.getColE, hdy]
    rw [hgx, except_bind_ok, hgy, except_bind_ok]
    rfl
  · with_unfolding_all rfl

/-- Witness for `trend_shapes`: a two-column sheet whose second column is
named `positive %` in lower case. -/
theorem trend_shapes_witness :
    (trendStep (some ⟨[⟨"Year", [.num 2020, .num 2021]⟩,
        ⟨"positive %", [.num 81, .num 84]⟩]⟩)).map
      (fun r => (r.1, isSingleLine r.2)) = .ok (none, true) :=
  trend_shapes.1 _ (by with_unfolding_all rfl) (by with_unfolding_all decide)

/-- A section only writes its own sheet: other keys are unchanged. -/
theorem runSection_fst_ne {α : Type} (key : String) (step : SectionStep α)
    {s s1 : SheetSet} {o : SectionResult α}
    (h : runSection key step s = .ok (s1, o)) :
    ∀ k, k ≠ key → s1 k = s k := by
  intro k hk
  rw [runSection] at h
  cases hstep : step (s key) with
  | error e => rw [hstep] at h; cases h
  | ok res =>
    rw [hstep] at h
    simp only [Except.map] at h
    cases h
    cases res.1 with
    | none => simp [applyWrite]
    | some tt => simp [applyWrite, updateSheet, hk]

/-- Simulation: running one section on two sheet sets that agree outside a
key the section does not touch yields the same output and preserves the
agreement. -/
theorem runSection_agree {α : Type} (key bad : String) (step : SectionStep α)
    {s s' : SheetSet} (hag : ∀ k, k ≠ bad → s k = s' k) (hkey : key ≠ bad)
    {s1 : SheetSet} {o : SectionResult α}
    (h : runSection key step s = .ok (s1, o)) :
    ∃ s1', runSection key step s' = .ok (s1', o) ∧
      ∀ k, k ≠ bad → s1 k = s1' k := by
  have hk : s key = s' key := hag key hkey
  rw [runSection] at h
  cases hstep : step (s key) with
  | error e => rw [hstep] at h; cases h
  | ok res =>
    rw [hstep] at h
    simp only [Except.map] at h
    cases h
    refine ⟨applyWrite s' key res.1, ?_, ?_⟩
    · rw [runSection, ← hk, hstep]
      rfl
    · intro k hkb
      cases res.1 with
      | none => simpa [applyWrite] using hag k hkb
      | some tt =>
        simp only [applyWrite, updateSheet]
        by_cases hkk : k = key
        · simp [hkk]
        · simp [hkk, hag k hkb]

/-- An absent or empty Areas-to-Improve sheet renders as the placeholder
notice with no write-back. -/
theorem improve_notice {m : Nat} {inp : Option Table}
    (h : inp = none ∨ ∃ t, inp = some t ∧ t.isEmpty = true) :
    improveStep m inp =
      .ok (none, .notice "Sheet 'Areas to Improve' not found.") := by
  rcases h with h | ⟨t, h, he⟩
  · rw [h]
    rfl
  · rw [h]
    simp only [improveStep, he]
    rfl

/-- **C8.** Sections are independent: remove (or empty) the
`Areas to Improve` sheet from a sheet set on which the page renders, and
the page still renders, showing the not-found notice for that section only
while every other section's output is unchanged. -/
theorem sections_independent (s s' : SheetSet) (n : Nat)
    (hag : ∀ k, k ≠ "Areas to Improve" → s k = s' k)
    (habs : s' "Areas to Improve" = none ∨
      ∃ t, s' "Areas to Improve" = some t ∧ t.isEmpty = true)
    (hok : (renderPage s n).toOption.isSome = true) :
    (renderPage s' n).map (fun r => r.2) =
      (renderPage s n).map (fun r =>
        { r.2 with improve := .notice "Sheet 'Areas to Improve' not found." }) := by
  cases h1 : renderOverall s with
  | error e =>
    rw [renderPage, h1, except_bind_error] at hok
    simp [Except.toOption] at hok
  | ok r1 =>
    obtain ⟨s1, o1⟩ := r1
    cases h2 : renderStrengths n s1 with
    | error e =>
      rw [renderPage, h1, except_bind_ok] at hok
      simp only [] at hok
      rw [h2, except_bind_error] at hok
      simp [Except.toOption] at hok
    | ok r2 =>
      obtain ⟨s2, o2⟩ := r2
      cases h3 : renderImprove n s2 with
      | error e =>
        rw [renderPage, h1, except_bind_ok] at hok
        simp only [] at hok
        rw [h2, except_bind_ok] at hok
        simp only [] at hok
        rw [h3, except_bind_error] at hok
        simp [Except.toOption] at hok
      | ok r3 =>
        obtain ⟨s3, o3⟩ := r3
        cases h4 : renderTrend s3 with
        | error e =>
          rw [renderPage, h1, except_bind_ok] at hok
          simp only [] at hok
          rw [h2, except_bind_ok] at hok
          simp only [] at hok
          rw [h3, except_bind_ok] at hok
          simp only [] at hok
          rw [h4, except_bind_error] at hok
          simp [Except.toOption] at hok
        | ok r4 =>
          obtain ⟨s4, o4⟩ := r4
          have hfull : renderPage s n = .ok (s4, ⟨o1, o2, o3, o4⟩) := by
            simp only [renderPage, h1, except_bind_ok, h2, h3, h4]
            rfl
          obtain ⟨s1', h1', hag1⟩ := runSection_agree "Overall Summary"
            "Areas to Improve" overallStep hag (by decide) h1
          obtain ⟨s2', h2', hag2⟩ := runSection_agree "Top Strengths"
            "Areas to Improve" (strengthsStep n) hag1 (by decide) h2
          have habs2 : s2' "Areas to Improve" = none ∨
              ∃ t, s2' "Areas to Improve" = some t ∧ t.isEmpty = true := by
            have e1 : s1' "Areas to Improve" = s' "Areas to Improve" :=
              runSection_fst_ne "Overall Summary" overallStep h1'
                "Areas to Improve" (by decide)
            have e2 : s2' "Areas to Improve" = s1' "Areas to Improve" :=
              runSection_fst_ne "Top Strengths" (strengthsStep n) h2'
                "Areas to Improve" (by decide)
            rw [e2, e1]
            exact habs
          have h3' : renderImprove n s2' =
              .ok (s2', .notice "Sheet 'Areas to Improve' not found.") := by
            rw [renderImprove, runSection, improve_notice habs2]
            rfl
          have hs3 : s3 = s2 := by
            rw [renderImprove, runSection] at h3
            cases hstep : improveStep n (s2 "Areas to Improve") with
            | error e => rw [hstep] at h3; cases h3
            | ok res =>
              rw [hstep] at h3
              simp only [Except.map] at h3
              cases h3
              rw [improveStep_no_write hstep]
              rfl
          have hag3 : ∀ k, k ≠ "Areas to Improve" → s3 k = s2' k := by
            rw [hs3]
            exact hag2
          obtain ⟨s4', h4', hag4⟩ := runSection_agree "Yearly Trend"
            "Areas to Improve" trendStep hag3 (by decide) h4
          have h1r : renderOverall s' = .ok (s1', o1) := h1'
          have h2r : renderStrengths n s1' = .ok (s2', o2) := h2'
          have h4r : renderTrend s2' = .ok (s4', o4) := h4'
          have hfull' : renderPage s' n =
              .ok (s4', ⟨o1, o2,
                .notice "Sheet 'Areas to Improve' not found.", o4⟩) := by
            simp only [renderPage, h1r, except_bind_ok, h2r, h3', h4r]
            rfl
          rw [hfull, hfull']
          rfl

set_option maxRecDepth 40000 in
/-- Witness for `sections_independent`: the concrete four-sheet set with
its Areas-to-Improve sheet removed. -/
theorem sections_independent_witness :
    (renderPage noImpSheets 5).map (fun r => r.2) =
      (renderPage fullSheets 5).map (fun r =>
        { r.2 with improve := .notice "Sheet 'Areas to Improve' not found." }) :=
  sections_independent fullSheets noImpSheets 5
    (by
      intro k hk
      simp [noImpSheets, hk])
    (Or.inl (by simp [noImpSheets]))
    (by with_unfolding_all rfl)

end Dash
